import Mathlib

/-!
Shallow embedding of `src/main.py` (a PDF → image → OCR pipeline) and proofs
about it.

Modelling conventions:
* Machine state is a `World`: the input PDF file, the temporary image
  directory, the output text file, and the credential environment variable.
  A directory is an association list from file names to file contents
  (file contents are modelled as `String`s standing for byte strings).
* External collaborators are parameters:
  `render : Int → String` stands for `page.get_pixmap(matrix=...).save(...)`
  at the run's fixed zoom and format (it maps a 0-based page index to the
  bytes written), and `service : String → String → Except String String`
  stands for the remote `generate_content` call (prompt and image bytes in,
  text or an error out).  Python name resolution for the module-global
  read in `extract_text_from_image` is a parameter
  `g : String → Option String`; the actual module's globals are
  `moduleGlobals` below.
* Python exceptions are `Except PyErr`; a `try/except` block is a `match`
  on the `Except` value.  Exit codes are `Int`.
* `fitz` (PyMuPDF) is third-party code that is not part of this repository;
  its boundary is modelled from its documented contract as stated by the
  spec: opening a missing/corrupt PDF raises, and accessing a page index
  outside `[0, pageCount-1]` raises (both classified `DocumentError`).
* File paths inside the temporary directory are stored relative to the
  directory (the Python code prefixes every name with the same
  `tmp_ocr_images/` component and sorts the joined paths, which orders
  exactly like the bare names).
-/

set_option linter.unusedVariables false

/-- Python exceptions that the embedded code can raise. -/
inductive PyErr where
  /-- `FileNotFoundError` raised by `validate_pdf_exists`. -/
  | fileNotFound
  /-- `ValueError` raised by `init_genai_client` when the key is missing
  or empty. -/
  | valueError
  /-- `NameError` raised on the read of an undefined module global. -/
  | nameError
  /-- PyMuPDF failure: unopenable PDF or out-of-bounds page index. -/
  | documentError
  /-- remote recognition failure surfaced by the API client. -/
  | recognitionError (msg : String)
  deriving DecidableEq, Repr

instance {α : Type} [DecidableEq α] : DecidableEq (Except PyErr α) := fun a b =>
  match a, b with
  | Except.ok x, Except.ok y =>
    if h : x = y then isTrue (by rw [h]) else isFalse (by intro hc; cases hc; exact h rfl)
  | Except.error x, Except.error y =>
    if h : x = y then isTrue (by rw [h]) else isFalse (by intro hc; cases hc; exact h rfl)
  | Except.ok _, Except.error _ => isFalse (by intro hc; cases hc)
  | Except.error _, Except.ok _ => isFalse (by intro hc; cases hc)

/-- The input PDF file: its page count and whether `fitz.open` succeeds on it. -/
structure PdfFile where
  pageCount : Nat
  openable : Bool
  deriving DecidableEq, Repr

/-- A directory: an association list from file names to file bytes. -/
abbrev FsDir := List (String × String)

/-- Write a file into a directory: overwrite the entry if the name is
present, append a new entry otherwise (models `pix.save(output_file)` /
`open(path, "w")` inside one directory). -/
def FsDir.write (d : FsDir) (n c : String) : FsDir :=
  if d.any (fun p => p.1 == n) then
    d.map (fun p => if p.1 == n then (n, c) else p)
  else
    d ++ [(n, c)]

/-- Read a file's bytes from a directory (total; unreadable names give `""`,
which no claim exercises). -/
def FsDir.read (d : FsDir) (n : String) : String :=
  match d.find? (fun p => p.1 == n) with
  | some p => p.2
  | none => ""

/-- Full machine state seen by one `run_ocr_process` invocation. -/
structure World where
  /-- the file `args.pdf_file` refers to (`none`: no such file). -/
  pdf : Option PdfFile
  /-- the temporary directory `tmp_ocr_images` (`none`: does not exist). -/
  tempDir : Option FsDir
  /-- the output text file's content (`none`: not created). -/
  output : Option String
  /-- `os.getenv("GOOGLE_API_KEY")` after `load_dotenv()`. -/
  apiKey : Option String
  /-- log of requests actually sent to the recognition service
  (prompt, image bytes), newest last. -/
  calls : List (String × String)
  deriving DecidableEq, Repr

/-- Parsed command-line arguments (`parse_arguments`).  `zoom` is omitted:
it is only ever forwarded to `get_pixmap`, which the `render` parameter
absorbs. -/
structure Args where
  pdf_file : String
  first_page : Option Int
  last_page : Option Int
  output : Option String
  keep_images : Bool
  prompt : Option String
  deriving DecidableEq, Repr

/-! ### Module constants (src/main.py lines 22-26) -/

def TEMP_DIR : String := "tmp_ocr_images"

def DEFAULT_OUTPUT_FORMAT : String := "png"

def GEMINI_MODEL : String := "gemini-2.0-flash"

def DEFAULT_OCR_PROMPT : String :=
  "この画像に含まれるすべてのテキストを抽出してください。改行や段落構造を維持し、完全かつ正確に文字起こしをしてください。"

/-- The string-valued globals actually defined at module level in
`src/main.py`.  Note that `OCR_PROMPT` (read on line 140) is **not** among
them: no assignment to that name exists anywhere in the file. -/
def moduleGlobals : String → Option String := fun name =>
  if name = "TEMP_DIR" then some TEMP_DIR
  else if name = "DEFAULT_OUTPUT_FORMAT" then some DEFAULT_OUTPUT_FORMAT
  else if name = "GEMINI_MODEL" then some GEMINI_MODEL
  else if name = "DEFAULT_OCR_PROMPT" then some DEFAULT_OCR_PROMPT
  else none

/-! ### Decimal formatting (Python `f"{n:04d}"`) -/

/-- The character for one decimal digit. -/
def digitChar (d : Nat) : Char := Char.ofNat (48 + d)

/-- Decimal digits of `n`, most significant first; `fuel` bounds the
recursion (any `fuel > n` gives the true digits). -/
def decDigits (fuel n : Nat) : List Char :=
  match fuel with
  | 0 => []
  | f + 1 => if n < 10 then [digitChar n] else decDigits f (n / 10) ++ [digitChar (n % 10)]

/-- Decimal representation of `n` (no sign, no leading zeros). -/
def decimalRepr (n : Nat) : List Char := decDigits (n + 1) n

/-- Python `f"{n:04d}"` for a nonnegative `n`: the decimal representation
left-padded with `'0'` to at least four characters. -/
def format04d (n : Nat) : String :=
  String.mk (List.replicate (4 - (decimalRepr n).length) '0' ++ decimalRepr n)

/-! ### Path helpers -/

/-- `os.path.basename`: the component after the last `/`. -/
def pathBasename (p : String) : String :=
  String.mk ((p.data.reverse.takeWhile (fun c => c ≠ '/')).reverse)

/-- Helper for `splitext`: scanning the reversed character list, drop the
last extension (the suffix after the final `.`), provided some character
before that dot is not itself a dot (Python ignores leading dots). -/
def dropExtRev : List Char → Option (List Char)
  | [] => none
  | '.' :: rest => if rest.any (fun c => c ≠ '.') then some rest else none
  | _ :: rest => dropExtRev rest

/-- Root of `os.path.splitext` / `pathlib.Path(...).stem` applied to a bare
file name. -/
def splitextRoot (b : String) : String :=
  match dropExtRev b.data.reverse with
  | some rest => String.mk rest.reverse
  | none => b

/-- `Path(pdf_path).stem` (also `os.path.splitext(os.path.basename(...))[0]`). -/
def pdfStem (p : String) : String := splitextRoot (pathBasename p)

/-! ### Page rasterizer (src/main.py lines 69-123) -/

/-- Python `range(start_page, end_page + 1)` over (possibly negative)
integers. -/
def intRange (start_page end_page : Int) : List Int :=
  (List.range (end_page + 1 - start_page).toNat).map (fun (i : Nat) => start_page + (i : Int))

/-- The image file name generated on line 84:
`f"{pdf_name}_page_{page_num+1:04d}.{output_format}"` (relative to the
output directory).  Only evaluated for `page_num ≥ 0` in the embedded
code, because the out-of-bounds check of the page access precedes it. -/
def pageFileName (pdf_name output_format : String) (page_num : Int) : String :=
  pdf_name ++ "_page_" ++ format04d (page_num + 1).toNat ++ "." ++ output_format

/-- `convert_page_to_image` (lines 69-88): `pdf_document[page_num]` raises
for a page index outside `[0, pageCount-1]` (fitz contract, see the module
comment); otherwise the rendered pixmap is saved under the generated name.
Returns the updated directory together with the saved path. -/
def convert_page_to_image (render : Int → String) (pdf : PdfFile) (page_num : Int)
    (pdf_name output_format : String) (d : FsDir) : Except PyErr (FsDir × String) :=
  if page_num < 0 ∨ (pdf.pageCount : Int) ≤ page_num then Except.error PyErr.documentError
  else
    let output_file := pageFileName pdf_name output_format page_num
    Except.ok (FsDir.write d output_file (render page_num), output_file)

/-- The list comprehension on line 123: convert the pages one after the
other, stopping at (and propagating) the first exception; the directory
keeps the files written before the failure. -/
def convertPages (render : Int → String) (pdf : PdfFile) (pdf_name output_format : String) :
    List Int → FsDir → FsDir × Except PyErr (List String)
  | [], d => (d, Except.ok [])
  | p :: rest, d =>
    match convert_page_to_image render pdf p pdf_name output_format d with
    | Except.error e => (d, Except.error e)
    | Except.ok dc =>
      let r := convertPages render pdf pdf_name output_format rest dc.1
      (r.1,
        match r.2 with
        | Except.ok names => Except.ok (dc.2 :: names)
        | Except.error e => Except.error e)

/-- `convert_pdf_to_images` (lines 91-123).  `os.makedirs(..., exist_ok=True)`
turns an absent directory into an empty one; `fitz.open` fails on a missing
or unopenable PDF; `None` bounds resolve to `0` / `len(pdf_document) - 1`.
Returns the directory state alongside the result. -/
def convert_pdf_to_images (render : Int → String) (pdf_path : String) (pdfOpt : Option PdfFile)
    (output_format : String) (first_page last_page : Option Int) (d0 : Option FsDir) :
    FsDir × Except PyErr (List String) :=
  let d := d0.getD []
  let pdf_name := pdfStem pdf_path
  match pdfOpt with
  | none => (d, Except.error PyErr.documentError)
  | some pdf =>
    if pdf.openable = false then (d, Except.error PyErr.documentError)
    else
      let start_page := first_page.getD 0
      let end_page := last_page.getD ((pdf.pageCount : Int) - 1)
      convertPages render pdf pdf_name output_format (intRange start_page end_page) d

/-! ### Recognition stage (src/main.py lines 126-192) -/

/-- `init_genai_client` (lines 126-132): the guard `if not api_key` is a
Python truthiness test, so it raises `ValueError` both when
`GOOGLE_API_KEY` is unset after `load_dotenv()` and when it is set to the
empty string. -/
def init_genai_client (apiKey : Option String) : Except PyErr Unit :=
  match apiKey with
  | none => Except.error PyErr.valueError
  | some k => if k = "" then Except.error PyErr.valueError else Except.ok ()

/-- `extract_text_from_image` (lines 135-142).  Building the `contents`
list evaluates the bare name `OCR_PROMPT` through the module globals `g`;
if the name is undefined this raises `NameError` before any request is
sent.  Otherwise one request (prompt, image bytes) goes to the service.
Returns the log of requests sent together with the result. -/
def extract_text_from_image (g : String → Option String)
    (service : String → String → Except String String) (image_bytes : String) :
    List (String × String) × Except PyErr String :=
  match g "OCR_PROMPT" with
  | none => ([], Except.error PyErr.nameError)
  | some p =>
    ([(p, image_bytes)],
      match service p image_bytes with
      | Except.ok t => Except.ok t
      | Except.error m => Except.error (PyErr.recognitionError m))

/-- `process_image` (lines 145-149): returns the pair (basename, text). -/
def process_image (g : String → Option String)
    (service : String → String → Except String String) (d : FsDir) (image_path : String) :
    List (String × String) × Except PyErr (String × String) :=
  let e := extract_text_from_image g service (FsDir.read d image_path)
  (e.1,
    match e.2 with
    | Except.ok t => Except.ok (image_path, t)
    | Except.error er => Except.error er)

/-- ASCII lowering of a file name (`file.lower()`; the generated names are
ASCII). -/
def pyLower (s : String) : String := String.mk (s.data.map Char.toLower)

/-- String suffix test (`str.endswith`). -/
def strEndsWith (s suffix_arg : String) : Bool := List.isSuffixOf suffix_arg.data s.data

/-- The filter on line 159: recognized image extensions. -/
def isImageName (f : String) : Bool :=
  [".png", ".jpg", ".jpeg"].any (fun ext => strEndsWith (pyLower f) ext)

/-- Python string comparison `s < t`: code-point lexicographic order (this
is also the order Lean's `String.instLT` uses: `List.lt` on the character
lists). -/
def pyStrLt (s t : String) : Prop := List.lt s.data t.data

/-- Structural decision procedure for `List.lt` on characters. -/
def decListCharLt : (u v : List Char) → Decidable (List.lt u v)
  | [], [] => isFalse (fun h => nomatch h)
  | _ :: _, [] => isFalse (fun h => nomatch h)
  | [], b :: bs => isTrue (List.lt.nil b bs)
  | a :: as, b :: bs =>
    if h1 : a < b then isTrue (List.lt.head as bs h1)
    else if h2 : b < a then
      isFalse (fun h => by
        cases h with
        | head _ _ hlt => exact h1 hlt
        | tail hab hba ht => exact hba h2)
    else
      match decListCharLt as bs with
      | isTrue ht => isTrue (List.lt.tail h1 h2 ht)
      | isFalse hf => isFalse (fun h => by
          cases h with
          | head _ _ hlt => exact h1 hlt
          | tail hab hba ht => exact hf ht)

instance pyStrLtDec (s t : String) : Decidable (pyStrLt s t) := decListCharLt s.data t.data

/-- Insert into an ascending list (comparison is code-point lexicographic,
as Python string comparison is). -/
def insertSorted (x : String) : List String → List String
  | [] => [x]
  | y :: ys => if pyStrLt y x then y :: insertSorted x ys else x :: y :: ys

/-- Python `sorted` on file names (duplicate-free in every reachable state,
so any ascending sort agrees with it). -/
def pySorted : List String → List String
  | [] => []
  | x :: xs => insertSorted x (pySorted xs)

/-- Lines 156-160: list the directory, keep recognized image files, sort by
name. -/
def sortedImageFiles (d : FsDir) : List String :=
  pySorted ((d.map (fun p => p.1)).filter (fun f => isImageName f))

/-- Result of `process_images`: the output file write (if any), the boolean
result, and the log of requests sent to the recognition service. -/
structure ProcResult where
  written : Option String
  ok : Bool
  calls : List (String × String)
  deriving DecidableEq, Repr

/-- The comprehension on lines 175-178: recognize each image in order,
stopping at (and propagating) the first exception, accumulating the request
log. -/
def ocrLoop (g : String → Option String) (service : String → String → Except String String)
    (d : FsDir) : List String → List (String × String) × Except PyErr (List (String × String))
  | [] => ([], Except.ok [])
  | f :: rest =>
    let e := process_image g service d f
    match e.2 with
    | Except.error er => (e.1, Except.error er)
    | Except.ok pair =>
      let r := ocrLoop g service d rest
      (e.1 ++ r.1,
        match r.2 with
        | Except.ok l => Except.ok (pair :: l)
        | Except.error er => Except.error er)

/-- `process_images` (lines 152-192).  Its `prompt` parameter is accepted
and then never read — exactly as in the source, where the assembled prompt
is passed in and ignored.  The surrounding `try/except` turns every raised
exception into the return value `False`; the output file is written only
when every image was recognized. -/
def process_images (g : String → Option String)
    (service : String → String → Except String String) (apiKey : Option String)
    (d : FsDir) (prompt : String) : ProcResult :=
  let image_files := sortedImageFiles d
  if image_files = [] then { written := none, ok := false, calls := [] }
  else
    match init_genai_client apiKey with
    | Except.error _ => { written := none, ok := false, calls := [] }
    | Except.ok _ =>
      let r := ocrLoop g service d image_files
      match r.2 with
      | Except.error _ => { written := none, ok := false, calls := r.1 }
      | Except.ok results =>
        { written := some (String.intercalate "\n\n"
            (results.map (fun pr => "------------------\n" ++ pr.2))),
          ok := true, calls := r.1 }

/-! ### Orchestrator (src/main.py lines 195-245) -/

/-- `clean_temp_directory` (lines 195-199): remove the temporary directory
unless `keep_images` is set. -/
def clean_temp_directory (keep_images : Bool) (w : World) : World :=
  if keep_images = false ∧ w.tempDir.isSome then { w with tempDir := none } else w

/-- Lines 215-216: 1-based user page numbers become 0-based
(`None if x is None else x - 1`). -/
def resolvePage (p : Option Int) : Option Int :=
  match p with
  | none => none
  | some n => some (n - 1)

/-- Lines 228-231: the prompt the orchestrator assembles (note the Python
truthiness test: an empty `--prompt` string leaves the default unchanged). -/
def assembled_ocr_prompt (args_prompt : Option String) : String :=
  match args_prompt with
  | none => DEFAULT_OCR_PROMPT
  | some p => if p = "" then DEFAULT_OCR_PROMPT else DEFAULT_OCR_PROMPT ++ "\n" ++ p

/-- `get_output_filename` (lines 53-59); the world keeps a single output
slot, so the computed path is not consulted further by the model. -/
def get_output_filename (args : Args) : String :=
  match args.output with
  | some o => if o = "" then pdfStem args.pdf_file ++ "_ocr.txt" else o
  | none => pdfStem args.pdf_file ++ "_ocr.txt"

/-- Body of the `try` block of `run_ocr_process` (lines 204-237):
validate the PDF, create the temporary directory, resolve the page range,
rasterize, assemble the prompt, recognize, and report `0`/`1`; any raised
exception is propagated to the caller's `except`. -/
def run_body (g : String → Option String) (service : String → String → Except String String)
    (render : Int → String) (args : Args) (w : World) : World × Except PyErr Int :=
  match w.pdf with
  | none => (w, Except.error PyErr.fileNotFound)
  | some _ =>
    let w2 : World := { w with tempDir := some (w.tempDir.getD []) }
    let conv := convert_pdf_to_images render args.pdf_file w.pdf DEFAULT_OUTPUT_FORMAT
      (resolvePage args.first_page) (resolvePage args.last_page) w2.tempDir
    let w3 : World := { w2 with tempDir := some conv.1 }
    match conv.2 with
    | Except.error e => (w3, Except.error e)
    | Except.ok _ =>
      let pr := process_images g service w.apiKey conv.1 (assembled_ocr_prompt args.prompt)
      let w4 : World := { w3 with
        output := match pr.written with | some s => some s | none => w3.output,
        calls := w3.calls ++ pr.calls }
      (w4, Except.ok (if pr.ok then 0 else 1))

/-- `run_ocr_process` (lines 202-245): the `try/except` converts any raised
exception into exit code `1`; the `finally` block always runs
`clean_temp_directory` afterwards. -/
def run_ocr_process (g : String → Option String) (service : String → String → Except String String)
    (render : Int → String) (args : Args) (w : World) : World × Int :=
  let b := run_body g service render args w
  let code : Int := match b.2 with | Except.ok c => c | Except.error _ => 1
  (clean_temp_directory args.keep_images b.1, code)

/-- A name is present in the directory (the test `FsDir.write` branches on). -/
def FsDir.hasKey (d : FsDir) (n : String) : Bool := d.any (fun p => p.1 == n)

/-- Every entry of the directory carrying name `n` holds the bytes `v`. -/
def FsDir.allVal (d : FsDir) (n v : String) : Prop := ∀ p ∈ d, p.1 = n → p.2 = v

/-- Numeric value of one decimal digit character. -/
def digitVal (c : Char) : Nat := c.toNat - 48

/-- Numeric value of a decimal digit string. -/
def valOfDigits (l : List Char) : Nat := l.foldl (fun acc c => 10 * acc + digitVal c) 0

/-- The pages the rasterization loop actually reaches: page conversion
stops at the first out-of-bounds index. -/
def okPages (pdf : PdfFile) (pages : List Int) : List Int :=
  pages.takeWhile (fun p => !(decide (p < 0 ∨ (pdf.pageCount : Int) ≤ p)))

/-! ### Sanity checks of the embedding -/

example : format04d 2 = "0002" := by decide
example : format04d 9999 = "9999" := by decide
example : format04d 10000 = "10000" := by decide

example : pdfStem "docs/book.pdf" = "book" := by decide
example : pdfStem "a.b.pdf" = "a.b" := by decide

/-! ### Helper lemmas about the orchestrator -/

theorem clean_output (k : Bool) (w : World) : (clean_temp_directory k w).output = w.output := by
  unfold clean_temp_directory
  split <;> rfl

theorem clean_calls (k : Bool) (w : World) : (clean_temp_directory k w).calls = w.calls := by
  unfold clean_temp_directory
  split <;> rfl

theorem clean_false_tempDir (w : World) : (clean_temp_directory false w).tempDir = none := by
  cases ht : w.tempDir <;> simp [clean_temp_directory, ht]

theorem clean_keep_true (w : World) : clean_temp_directory true w = w := by
  simp [clean_temp_directory]

theorem run_fst (g : String → Option String) (service : String → String → Except String String)
    (render : Int → String) (args : Args) (w : World) :
    (run_ocr_process g service render args w).1
      = clean_temp_directory args.keep_images (run_body g service render args w).1 := rfl

theorem run_snd (g : String → Option String) (service : String → String → Except String String)
    (render : Int → String) (args : Args) (w : World) :
    (run_ocr_process g service render args w).2
      = (match (run_body g service render args w).2 with
         | Except.ok c => c
         | Except.error _ => 1) := rfl

theorem process_images_no_key (g : String → Option String)
    (service : String → String → Except String String) (d : FsDir) (prompt : String) :
    process_images g service none d prompt = { written := none, ok := false, calls := [] } := by
  by_cases h : sortedImageFiles d = []
  · simp [process_images, h]
  · simp [process_images, init_genai_client, h]

theorem run_body_no_key (g : String → Option String)
    (service : String → String → Except String String) (render : Int → String)
    (args : Args) (w : World) (hkey : w.apiKey = none) :
    (run_body g service render args w).1.output = w.output ∧
    (match (run_body g service render args w).2 with
     | Except.ok c => c
     | Except.error _ => 1) = 1 := by
  unfold run_body
  cases hp : w.pdf with
  | none => exact ⟨rfl, rfl⟩
  | some pdf =>
    simp only [hkey, process_images_no_key]
    split <;> exact ⟨rfl, rfl⟩

/-! ### Claim theorems (error handling around the run) -/

/-- C4: when the input PDF path does not refer to an existing file the run
exits with failure status 1 and leaves the world exactly as it was
(assuming the temporary directory did not pre-exist): the temporary
directory is never created, nothing is rasterized, and no recognition
request is sent. -/
theorem missing_pdf_run (g : String → Option String)
    (service : String → String → Except String String) (render : Int → String)
    (args : Args) (w : World) (hpdf : w.pdf = none) (htmp : w.tempDir = none) :
    run_ocr_process g service render args w = (w, 1) := by
  unfold run_ocr_process run_body
  rw [hpdf]
  simp only []
  cases hk : args.keep_images <;> simp [clean_temp_directory, htmp]

theorem missing_pdf_run_witness :
    run_ocr_process moduleGlobals (fun _ _ => Except.ok "t") (fun _ => "b")
      ⟨"missing.pdf", none, none, none, false, none⟩
      ⟨none, none, none, some "key", []⟩
      = (⟨none, none, none, some "key", []⟩, 1) :=
  missing_pdf_run _ _ _ _ _ rfl rfl

/-- C5: with retention not requested, after any run — whatever happened in
the pipeline body, normal return or raised exception — the temporary
directory does not exist. -/
theorem cleanup_invariant (g : String → Option String)
    (service : String → String → Except String String) (render : Int → String)
    (args : Args) (w : World) (hk : args.keep_images = false) :
    (run_ocr_process g service render args w).1.tempDir = none := by
  rw [run_fst, hk]
  exact clean_false_tempDir _

theorem cleanup_invariant_witness :
    (run_ocr_process moduleGlobals (fun _ _ => Except.ok "t") (fun _ => "b")
      ⟨"book.pdf", none, none, none, false, none⟩
      ⟨some ⟨2, true⟩, none, none, some "key", []⟩).1.tempDir = none :=
  cleanup_invariant _ _ _ _ _ rfl

/-- C3: when `GOOGLE_API_KEY` is absent the run exits with failure status
1, the output file is not written (the output slot of the world is
untouched), and — retention not being requested — the temporary directory
does not exist afterwards. -/
theorem missing_api_key_run (g : String → Option String)
    (service : String → String → Except String String) (render : Int → String)
    (args : Args) (w : World) (hkey : w.apiKey = none) (hkeep : args.keep_images = false) :
    (run_ocr_process g service render args w).2 = 1
    ∧ (run_ocr_process g service render args w).1.output = w.output
    ∧ (run_ocr_process g service render args w).1.tempDir = none := by
  obtain ⟨h1, h2⟩ := run_body_no_key g service render args w hkey
  refine ⟨?_, ?_, ?_⟩
  · rw [run_snd]
    exact h2
  · rw [run_fst, clean_output]
    exact h1
  · rw [run_fst, hkeep]
    exact clean_false_tempDir _

theorem missing_api_key_run_witness :
    (run_ocr_process moduleGlobals (fun _ _ => Except.ok "t") (fun _ => "b")
      ⟨"book.pdf", none, none, none, false, none⟩
      ⟨some ⟨2, true⟩, none, none, none, []⟩).2 = 1
    ∧ (run_ocr_process moduleGlobals (fun _ _ => Except.ok "t") (fun _ => "b")
      ⟨"book.pdf", none, none, none, false, none⟩
      ⟨some ⟨2, true⟩, none, none, none, []⟩).1.output = none
    ∧ (run_ocr_process moduleGlobals (fun _ _ => Except.ok "t") (fun _ => "b")
      ⟨"book.pdf", none, none, none, false, none⟩
      ⟨some ⟨2, true⟩, none, none, none, []⟩).1.tempDir = none :=
  missing_api_key_run _ _ _ _ _ rfl rfl

/-- C1 (refuted by the code, a bug): `extract_text_from_image` does not use
the prompt assembled by the orchestrator.  It reads the module global
`OCR_PROMPT`, which is never defined, so on a fully well-formed run (an
existing openable one-page PDF, credential present, caller-supplied prompt
suffix given) the recognition stage raises `NameError`: no request at all
reaches the service — in particular none carrying the assembled prompt —
the run exits 1, and no output file is written. -/
theorem ocr_prompt_undefined :
    moduleGlobals "OCR_PROMPT" = none
    ∧ (extract_text_from_image moduleGlobals (fun _ i => Except.ok i) "bytes").2
        = Except.error PyErr.nameError
    ∧ (run_ocr_process moduleGlobals (fun _ i => Except.ok i) (fun _ => "bytes")
        ⟨"book.pdf", none, none, none, false, some "extra"⟩
        ⟨some ⟨1, true⟩, none, none, some "key", []⟩).2 = 1
    ∧ (run_ocr_process moduleGlobals (fun _ i => Except.ok i) (fun _ => "bytes")
        ⟨"book.pdf", none, none, none, false, some "extra"⟩
        ⟨some ⟨1, true⟩, none, none, some "key", []⟩).1.calls = []
    ∧ (run_ocr_process moduleGlobals (fun _ i => Except.ok i) (fun _ => "bytes")
        ⟨"book.pdf", none, none, none, false, some "extra"⟩
        ⟨some ⟨1, true⟩, none, none, some "key", []⟩).1.output = none := by
  decide

/-- C6: 1-based user page bounds become the 0-based internal range by
subtracting one; `None` bounds resolve to document start/end inside the
rasterizer; and for `first-page=2, last-page=2` on a 5-page PDF the run
produces exactly one image — the one rendered from 0-based page index 1
(document page 2), named with page suffix `0002`. -/
theorem page_range_resolution (render : Int → String) (g : String → Option String)
    (service : String → String → Except String String) :
    resolvePage (some 2) = some 1
    ∧ resolvePage none = none
    ∧ (convert_pdf_to_images render "book.pdf" (some ⟨5, true⟩) DEFAULT_OUTPUT_FORMAT
        (some 1) (some 1) (some [])).2 = Except.ok ["book_page_0002.png"]
    ∧ (convert_pdf_to_images render "book.pdf" (some ⟨5, true⟩) DEFAULT_OUTPUT_FORMAT
        none none (some [])).2
      = Except.ok ["book_page_0001.png", "book_page_0002.png", "book_page_0003.png",
          "book_page_0004.png", "book_page_0005.png"]
    ∧ (run_ocr_process g service render
        ⟨"book.pdf", some 2, some 2, none, true, none⟩
        ⟨some ⟨5, true⟩, none, none, none, []⟩).1.tempDir
      = some [("book_page_0002.png", render 1)] := by
  refine ⟨rfl, rfl, ?_, ?_, ?_⟩ <;> rfl

/-! ### Empty range and out-of-bounds behaviour of the rasterizer -/

theorem intRange_eq_nil {s e : Int} (h : e < s) : intRange s e = [] := by
  rw [intRange]
  have h0 : (e + 1 - s).toNat = 0 := by omega
  rw [h0]
  rfl

theorem process_images_no_images (g : String → Option String)
    (service : String → String → Except String String) (apiKey : Option String)
    (d : FsDir) (prompt : String) (h : sortedImageFiles d = []) :
    process_images g service apiKey d prompt = { written := none, ok := false, calls := [] } := by
  simp [process_images, h]

theorem convert_empty_range (render : Int → String) (pdf_path : String) (pdf : PdfFile)
    (fmt : String) (f l : Int) (d0 : Option FsDir)
    (hopen : pdf.openable = true) (hlt : l < f) :
    convert_pdf_to_images render pdf_path (some pdf) fmt (some f) (some l) d0
      = (d0.getD [], Except.ok []) := by
  simp [convert_pdf_to_images, hopen, intRange_eq_nil hlt, convertPages]

/-- C10: for an openable PDF and an empty resolved page range (first-page
and last-page given with last < first), starting with no stray image files
in the temporary directory, the rasterizer writes no file; `process_images`
takes its empty-listing warning path and returns `False` instead of
raising; and the run sends no recognition request, writes no output file,
and exits with failure status 1 with the pipeline body returning normally
(`Except.ok 1`, i.e. no exception reaches the top-level handler). -/
theorem empty_range_run (g : String → Option String)
    (service : String → String → Except String String) (render : Int → String)
    (args : Args) (w : World) (pdf : PdfFile) (a b : Int)
    (hpdf : w.pdf = some pdf) (hopen : pdf.openable = true)
    (hf : args.first_page = some a) (hl : args.last_page = some b) (hab : b < a)
    (hstray : sortedImageFiles (w.tempDir.getD []) = []) :
    (run_body g service render args w).2 = Except.ok 1
    ∧ (run_ocr_process g service render args w).2 = 1
    ∧ (run_ocr_process g service render args w).1.output = w.output
    ∧ (run_ocr_process g service render args w).1.calls = w.calls := by
  have hconv := convert_empty_range render args.pdf_file pdf DEFAULT_OUTPUT_FORMAT
    (a - 1) (b - 1) (some (w.tempDir.getD [])) hopen (by omega)
  have hbody : (run_body g service render args w).1.output = w.output
      ∧ (run_body g service render args w).1.calls = w.calls
      ∧ (run_body g service render args w).2 = Except.ok 1 := by
    unfold run_body
    rw [hpdf]
    simp only [hf, hl, resolvePage]
    rw [hconv]
    simp only [Option.getD_some]
    simp only [process_images_no_images g service w.apiKey (w.tempDir.getD [])
      (assembled_ocr_prompt args.prompt) hstray]
    simp
  refine ⟨hbody.2.2, ?_, ?_, ?_⟩
  · rw [run_snd, hbody.2.2]
  · rw [run_fst, clean_output, hbody.1]
  · rw [run_fst, clean_calls, hbody.2.1]

theorem empty_range_run_witness :
    (run_body moduleGlobals (fun _ _ => Except.ok "t") (fun _ => "b")
      ⟨"book.pdf", some 3, some 2, none, false, none⟩
      ⟨some ⟨5, true⟩, none, none, some "k", []⟩).2 = Except.ok 1
    ∧ (run_ocr_process moduleGlobals (fun _ _ => Except.ok "t") (fun _ => "b")
      ⟨"book.pdf", some 3, some 2, none, false, none⟩
      ⟨some ⟨5, true⟩, none, none, some "k", []⟩).2 = 1
    ∧ (run_ocr_process moduleGlobals (fun _ _ => Except.ok "t") (fun _ => "b")
      ⟨"book.pdf", some 3, some 2, none, false, none⟩
      ⟨some ⟨5, true⟩, none, none, some "k", []⟩).1.output = none
    ∧ (run_ocr_process moduleGlobals (fun _ _ => Except.ok "t") (fun _ => "b")
      ⟨"book.pdf", some 3, some 2, none, false, none⟩
      ⟨some ⟨5, true⟩, none, none, some "k", []⟩).1.calls = [] :=
  empty_range_run _ _ _ _ _ _ 3 2 rfl rfl rfl rfl (by decide) rfl

theorem convertPages_oob (render : Int → String) (pdf : PdfFile) (pdf_name fmt : String) :
    ∀ (pages : List Int) (d : FsDir),
    (∃ p ∈ pages, p < 0 ∨ (pdf.pageCount : Int) ≤ p) →
    (convertPages render pdf pdf_name fmt pages d).2 = Except.error PyErr.documentError := by
  intro pages
  induction pages with
  | nil =>
    intro d h
    rcases h with ⟨p, hp, _⟩
    cases hp
  | cons q rest ih =>
    intro d h
    by_cases hq : q < 0 ∨ (pdf.pageCount : Int) ≤ q
    · simp [convertPages, convert_page_to_image, hq]
    · rcases h with ⟨p, hp, hpo⟩
      rcases List.mem_cons.mp hp with rfl | hmem
      · exact absurd hpo hq
      · simp only [convertPages, convert_page_to_image, if_neg hq]
        rw [ih _ ⟨p, hmem, hpo⟩]

/-- C8: the rasterizer fails with the `DocumentError` classification and
does not silently render when the PDF path has no file behind it, when the
PDF cannot be opened, and whenever some page index of the resolved range
lies outside `[0, pageCount-1]` (the fitz page access is modelled as
raising there; `convert_pdf_to_images` adds no handling, so the failure
propagates out of the whole call). -/
theorem rasterizer_failure (render : Int → String) (pdf_path : String) (fmt : String)
    (first_page last_page : Option Int) (d0 : Option FsDir) :
    ((convert_pdf_to_images render pdf_path none fmt first_page last_page d0).2
        = Except.error PyErr.documentError)
    ∧ (∀ pdf : PdfFile, pdf.openable = false →
        (convert_pdf_to_images render pdf_path (some pdf) fmt first_page last_page d0).2
          = Except.error PyErr.documentError)
    ∧ (∀ pdf : PdfFile, pdf.openable = true →
        (∃ p ∈ intRange (first_page.getD 0) (last_page.getD ((pdf.pageCount : Int) - 1)),
            p < 0 ∨ (pdf.pageCount : Int) ≤ p) →
        (convert_pdf_to_images render pdf_path (some pdf) fmt first_page last_page d0).2
          = Except.error PyErr.documentError) := by
  refine ⟨rfl, ?_, ?_⟩
  · intro pdf hop
    simp [convert_pdf_to_images, hop]
  · intro pdf hop hex
    simp only [convert_pdf_to_images, hop]
    simp only [Bool.true_eq_false, if_false]
    exact convertPages_oob render pdf _ fmt _ _ hex

theorem rasterizer_failure_witness :
    ((convert_pdf_to_images (fun _ => "b") "book.pdf" none "png" none none none).2
        = Except.error PyErr.documentError)
    ∧ ((convert_pdf_to_images (fun _ => "b") "book.pdf" (some ⟨2, false⟩) "png" none none none).2
        = Except.error PyErr.documentError)
    ∧ ((convert_pdf_to_images (fun _ => "b") "book.pdf" (some ⟨2, true⟩) "png"
          (some 5) (some 5) none).2 = Except.error PyErr.documentError) :=
  ⟨(rasterizer_failure _ _ _ _ _ _).1,
   (rasterizer_failure _ _ _ _ _ _).2.1 ⟨2, false⟩ rfl,
   (rasterizer_failure _ _ _ _ _ _).2.2 ⟨2, true⟩ rfl ⟨5, by decide, by decide⟩⟩

/-! ### Output assembly -/

theorem ocrLoop_all_ok (g : String → Option String)
    (service : String → String → Except String String) (d : FsDir) (texts : String → String) :
    ∀ (fs : List String),
    (∀ f ∈ fs, (extract_text_from_image g service (FsDir.read d f)).2 = Except.ok (texts f)) →
    (ocrLoop g service d fs).2 = Except.ok (fs.map (fun f => (f, texts f))) := by
  intro fs
  induction fs with
  | nil => intro h; rfl
  | cons f rest ih =>
    intro h
    have hf := h f (by simp)
    have hrest := ih (fun x hx => h x (by simp [hx]))
    simp only [ocrLoop, process_image, hf, hrest, List.map]

/-- C7: when the credential is present (a non-empty `GOOGLE_API_KEY`, as
Python's truthiness guard in `init_genai_client` requires) and every image
file in the temporary directory's listing — filtered to the recognized
extensions and sorted lexicographically by name — is recognized
successfully, the output file is written exactly once and its content is
the `"\n\n"`-join of one `"------------------\n"`-headed block per
recognition result, in that sorted file order. -/
theorem output_assembly (g : String → Option String)
    (service : String → String → Except String String) (k : String) (d : FsDir)
    (prompt : String) (texts : String → String)
    (hkey : k ≠ "")
    (hne : sortedImageFiles d ≠ [])
    (hok : ∀ f ∈ sortedImageFiles d,
      (extract_text_from_image g service (FsDir.read d f)).2 = Except.ok (texts f)) :
    process_images g service (some k) d prompt
      = { written := some (String.intercalate "\n\n"
            ((sortedImageFiles d).map (fun f => "------------------\n" ++ texts f))),
          ok := true,
          calls := (ocrLoop g service d (sortedImageFiles d)).1 } := by
  have hloop := ocrLoop_all_ok g service d texts (sortedImageFiles d) hok
  simp only [process_images, init_genai_client]
  rw [if_neg hne, if_neg hkey]
  simp only [hloop]
  simp only [List.map_map]
  rfl

theorem output_assembly_witness :
    process_images (fun n => if n = "OCR_PROMPT" then some "P" else none)
        (fun _ _ => Except.ok "T") (some "k") [("a.png", "x")] "prompt"
      = { written := some "------------------\nT", ok := true, calls := [("P", "x")] } :=
  (output_assembly (fun n => if n = "OCR_PROMPT" then some "P" else none)
      (fun _ _ => Except.ok "T") "k" [("a.png", "x")] "prompt" (fun _ => "T")
      (by decide) (by decide) (by decide)).trans (by decide)

/-! ### Decimal formatting lemmas -/

theorem decDigits_fuel : ∀ (n f₁ f₂ : Nat), n < f₁ → n < f₂ → decDigits f₁ n = decDigits f₂ n := by
  intro n
  induction n using Nat.strong_induction_on with
  | _ n ih =>
    intro f₁ f₂ h₁ h₂
    cases f₁ with
    | zero => omega
    | succ fa =>
      cases f₂ with
      | zero => omega
      | succ fb =>
        simp only [decDigits]
        by_cases h : n < 10
        · simp [h]
        · simp only [if_neg h]
          rw [ih (n / 10) (by omega) fa fb (by omega) (by omega)]

theorem decimalRepr_unfold (n : Nat) :
    decimalRepr n
      = if n < 10 then [digitChar n] else decimalRepr (n / 10) ++ [digitChar (n % 10)] := by
  by_cases h : n < 10
  · simp [decimalRepr, decDigits, h]
  · rw [if_neg h]
    show decDigits (n + 1) n = decimalRepr (n / 10) ++ [digitChar (n % 10)]
    rw [show decDigits (n + 1) n
        = if n < 10 then [digitChar n] else decDigits n (n / 10) ++ [digitChar (n % 10)] from rfl]
    rw [if_neg h, decimalRepr,
      decDigits_fuel (n / 10) n (n / 10 + 1) (by omega) (by omega)]

theorem decimalRepr_lt10 {n : Nat} (h : n < 10) : decimalRepr n = [digitChar n] := by
  rw [decimalRepr_unfold, if_pos h]

theorem decimalRepr_lt100 {n : Nat} (h1 : 10 ≤ n) (h2 : n < 100) :
    decimalRepr n = [digitChar (n / 10), digitChar (n % 10)] := by
  rw [decimalRepr_unfold, if_neg (by omega), decimalRepr_lt10 (by omega)]
  rfl

theorem decimalRepr_lt1000 {n : Nat} (h1 : 100 ≤ n) (h2 : n < 1000) :
    decimalRepr n = [digitChar (n / 100), digitChar (n / 10 % 10), digitChar (n % 10)] := by
  rw [decimalRepr_unfold, if_neg (by omega),
    decimalRepr_lt100 (by omega) (by omega)]
  have e1 : n / 10 / 10 = n / 100 := by rw [Nat.div_div_eq_div_mul]
  rw [e1]
  rfl

theorem decimalRepr_lt10000 {n : Nat} (h1 : 1000 ≤ n) (h2 : n < 10000) :
    decimalRepr n
      = [digitChar (n / 1000), digitChar (n / 100 % 10), digitChar (n / 10 % 10),
         digitChar (n % 10)] := by
  rw [decimalRepr_unfold, if_neg (by omega),
    decimalRepr_lt1000 (by omega) (by omega)]
  have e1 : n / 10 / 100 = n / 1000 := by rw [Nat.div_div_eq_div_mul]
  have e2 : n / 10 / 10 = n / 100 := by rw [Nat.div_div_eq_div_mul]
  rw [e1, e2]
  rfl

theorem format04d_digits {n : Nat} (h : n < 10000) :
    (format04d n).data
      = [digitChar (n / 1000), digitChar (n / 100 % 10), digitChar (n / 10 % 10),
         digitChar (n % 10)] := by
  unfold format04d
  rcases Nat.lt_or_ge n 10 with h1 | h1
  · rw [decimalRepr_lt10 h1]
    have e1 : n / 1000 = 0 := by omega
    have e2 : n / 100 % 10 = 0 := by omega
    have e3 : n / 10 % 10 = 0 := by omega
    have e4 : n % 10 = n := by omega
    rw [e1, e2, e3, e4]
    rfl
  rcases Nat.lt_or_ge n 100 with h2 | h2
  · rw [decimalRepr_lt100 h1 h2]
    have e1 : n / 1000 = 0 := by omega
    have e2 : n / 100 % 10 = 0 := by omega
    have e3 : n / 10 % 10 = n / 10 := by omega
    rw [e1, e2, e3]
    rfl
  rcases Nat.lt_or_ge n 1000 with h3 | h3
  · rw [decimalRepr_lt1000 h2 h3]
    have e1 : n / 1000 = 0 := by omega
    have e2 : n / 100 % 10 = n / 100 := by omega
    rw [e1, e2]
    rfl
  · rw [decimalRepr_lt10000 h3 h]
    rfl

theorem digitChar_lt_iff :
    ∀ a, a < 10 → ∀ b, b < 10 → (digitChar a < digitChar b ↔ a < b) := by decide

theorem digitChar_not_lt_of_eq {x y : Nat} (hx : x < 10) (hy : y < 10) (hxy : x = y) :
    ¬ digitChar x < digitChar y :=
  fun hc => absurd ((digitChar_lt_iff x hx y hy).mp hc) (by omega)

theorem list_lt_append_left (x : List Char) {u v : List Char} (h : List.lt u v) :
    List.lt (x ++ u) (x ++ v) := by
  induction x with
  | nil => exact h
  | cons c cs ih =>
    exact List.lt.tail (fun hc => Nat.lt_irrefl _ hc) (fun hc => Nat.lt_irrefl _ hc) ih

theorem format04d_append_lt {a b : Nat} (hab : a < b) (hb : b ≤ 9999) (r : List Char) :
    List.lt ((format04d a).data ++ r) ((format04d b).data ++ r) := by
  rw [format04d_digits (by omega : a < 10000), format04d_digits (by omega : b < 10000)]
  simp only [List.cons_append, List.nil_append]
  rcases Nat.lt_trichotomy (a / 1000) (b / 1000) with h3 | h3 | h3
  · exact List.lt.head _ _ ((digitChar_lt_iff _ (by omega) _ (by omega)).mpr h3)
  · refine List.lt.tail (digitChar_not_lt_of_eq (by omega) (by omega) h3)
      (digitChar_not_lt_of_eq (by omega) (by omega) h3.symm) ?_
    rcases Nat.lt_trichotomy (a / 100 % 10) (b / 100 % 10) with h2 | h2 | h2
    · exact List.lt.head _ _ ((digitChar_lt_iff _ (by omega) _ (by omega)).mpr h2)
    · refine List.lt.tail (digitChar_not_lt_of_eq (by omega) (by omega) h2)
        (digitChar_not_lt_of_eq (by omega) (by omega) h2.symm) ?_
      rcases Nat.lt_trichotomy (a / 10 % 10) (b / 10 % 10) with h1 | h1 | h1
      · exact List.lt.head _ _ ((digitChar_lt_iff _ (by omega) _ (by omega)).mpr h1)
      · refine List.lt.tail (digitChar_not_lt_of_eq (by omega) (by omega) h1)
          (digitChar_not_lt_of_eq (by omega) (by omega) h1.symm) ?_
        have h0 : a % 10 < b % 10 := by omega
        exact List.lt.head _ _ ((digitChar_lt_iff _ (by omega) _ (by omega)).mpr h0)
      · exact absurd hab (by omega)
    · exact absurd hab (by omega)
  · exact absurd hab (by omega)

/-! ### Range and filename-order facts -/

theorem mem_intRange {f l p : Int} : p ∈ intRange f l ↔ f ≤ p ∧ p ≤ l := by
  unfold intRange
  rw [List.mem_map]
  constructor
  · rintro ⟨i, hi, rfl⟩
    rw [List.mem_range] at hi
    omega
  · intro h
    refine ⟨(p - f).toNat, ?_, by omega⟩
    rw [List.mem_range]
    omega

theorem intRange_length (f l : Int) : (intRange f l).length = (l - f + 1).toNat := by
  unfold intRange
  rw [List.length_map, List.length_range]
  omega

theorem intRange_pairwise (f l : Int) :
    List.Pairwise (fun a b => a < b) (intRange f l) := by
  unfold intRange
  rw [List.pairwise_map]
  refine List.Pairwise.imp ?_ (List.pairwise_lt_range _)
  intro a b h
  dsimp only
  omega

theorem convertPages_ok (render : Int → String) (pdf : PdfFile) (pdf_name fmt : String) :
    ∀ (pages : List Int) (d : FsDir),
    (∀ p ∈ pages, 0 ≤ p ∧ p < (pdf.pageCount : Int)) →
    (convertPages render pdf pdf_name fmt pages d).2
      = Except.ok (pages.map (pageFileName pdf_name fmt)) := by
  intro pages
  induction pages with
  | nil => intro d h; rfl
  | cons q rest ih =>
    intro d h
    have hq := h q (by simp)
    simp only [convertPages, convert_page_to_image,
      if_neg (by omega : ¬(q < 0 ∨ (pdf.pageCount : Int) ≤ q))]
    rw [ih _ (fun p hp => h p (by simp [hp]))]
    rfl

theorem pageFileName_lt (pdf_name fmt : String) {p q : Int}
    (hp : 0 ≤ p) (hpq : p < q) (hq : q + 1 ≤ 9999) :
    pyStrLt (pageFileName pdf_name fmt p) (pageFileName pdf_name fmt q) := by
  unfold pyStrLt pageFileName
  simp only [String.data_append, List.append_assoc]
  refine list_lt_append_left _ (list_lt_append_left _ ?_)
  refine format04d_append_lt ?_ ?_ _
  · omega
  · omega

/-- C2 (amended): for every valid resolved page range (`first ≤ last`, both
within `[0, pageCount-1]`) on an openable PDF — with no cap on the page
count — `convert_pdf_to_images` returns exactly `last - first + 1` file
names, one per page in ascending page order (the i-th returned name is the
generated name of page `first + i`); and, provided the 1-based page numbers
of the range fit in the four-digit zero padding (`last + 1 ≤ 9999`), the
generated names are strictly increasing in code-point lexicographic order,
so sorting them reproduces the page order. -/
theorem convert_range_filenames (render : Int → String) (pdf_path : String) (pdf : PdfFile)
    (f l : Int) (d0 : Option FsDir)
    (hopen : pdf.openable = true) (h0 : 0 ≤ f) (hfl : f ≤ l)
    (hl : l < (pdf.pageCount : Int)) :
    (convert_pdf_to_images render pdf_path (some pdf) DEFAULT_OUTPUT_FORMAT
        (some f) (some l) d0).2
      = Except.ok ((intRange f l).map (pageFileName (pdfStem pdf_path) DEFAULT_OUTPUT_FORMAT))
    ∧ ((intRange f l).map (pageFileName (pdfStem pdf_path) DEFAULT_OUTPUT_FORMAT)).length
      = (l - f + 1).toNat
    ∧ (l + 1 ≤ 9999 → List.Pairwise pyStrLt
        ((intRange f l).map (pageFileName (pdfStem pdf_path) DEFAULT_OUTPUT_FORMAT))) := by
  refine ⟨?_, ?_, ?_⟩
  · simp only [convert_pdf_to_images, hopen]
    simp only [Bool.true_eq_false, if_false, Option.getD_some]
    exact convertPages_ok render pdf _ _ _ _
      (fun p hp => by have := mem_intRange.mp hp; omega)
  · rw [List.length_map, intRange_length]
  · intro hcap
    rw [List.pairwise_map]
    refine List.Pairwise.imp_of_mem ?_ (intRange_pairwise f l)
    intro a b ha hb hab
    have hma := mem_intRange.mp ha
    have hmb := mem_intRange.mp hb
    exact pageFileName_lt _ _ (by omega) hab (by omega)

theorem convert_range_filenames_witness :
    (convert_pdf_to_images (fun _ => "b") "book.pdf" (some ⟨3, true⟩) DEFAULT_OUTPUT_FORMAT
        (some 0) (some 2) none).2
      = Except.ok ((intRange 0 2).map (pageFileName (pdfStem "book.pdf") DEFAULT_OUTPUT_FORMAT))
    ∧ ((intRange 0 2).map (pageFileName (pdfStem "book.pdf") DEFAULT_OUTPUT_FORMAT)).length
      = ((2 : Int) - 0 + 1).toNat
    ∧ List.Pairwise pyStrLt
        ((intRange 0 2).map (pageFileName (pdfStem "book.pdf") DEFAULT_OUTPUT_FORMAT)) :=
  ⟨(convert_range_filenames (fun _ => "b") "book.pdf" ⟨3, true⟩ 0 2 none rfl
      (by decide) (by decide) (by decide)).1,
   (convert_range_filenames (fun _ => "b") "book.pdf" ⟨3, true⟩ 0 2 none rfl
      (by decide) (by decide) (by decide)).2.1,
   (convert_range_filenames (fun _ => "b") "book.pdf" ⟨3, true⟩ 0 2 none rfl
      (by decide) (by decide) (by decide)).2.2 (by decide)⟩

/-- C2 (counterexample to the claim as stated): on a 10000-page openable
document the resolved range `[9998, 9999]` is valid (`first ≤ last`, both
within `[0, 9999]`), and the rasterizer returns the two names
`book_page_9999.png`, `book_page_10000.png` in page order — but the later
page's name sorts lexicographically BEFORE the earlier page's name (the
five-digit page number escapes the 4-digit zero padding), so the generated
file names do not sort in page order. -/
theorem filename_order_counterexample :
    ((0 : Int) ≤ 9998 ∧ (9998 : Int) ≤ 9999 ∧ (9999 : Int) < ((10000 : Nat) : Int))
    ∧ (convert_pdf_to_images (fun _ => "b") "book.pdf" (some ⟨10000, true⟩)
        DEFAULT_OUTPUT_FORMAT (some 9998) (some 9999) none).2
      = Except.ok ["book_page_9999.png", "book_page_10000.png"]
    ∧ pyStrLt "book_page_10000.png" "book_page_9999.png"
    ∧ ¬ pyStrLt "book_page_9999.png" "book_page_10000.png"
    ∧ pySorted ["book_page_9999.png", "book_page_10000.png"]
      = ["book_page_10000.png", "book_page_9999.png"] := by
  decide

/-! ### Directory-write lemmas -/

theorem write_hasKey_self (d : FsDir) (n c : String) :
    (FsDir.write d n c).hasKey n = true := by
  unfold FsDir.write FsDir.hasKey
  by_cases h : d.any (fun p => p.1 == n)
  · rw [if_pos h]
    rw [List.any_eq_true] at h ⊢
    obtain ⟨p, hp, hpn⟩ := h
    refine ⟨(n, c), ?_, by simp⟩
    rw [List.mem_map]
    exact ⟨p, hp, by rw [if_pos hpn]⟩
  · rw [if_neg h]
    simp

theorem write_allVal_self (d : FsDir) (n c : String) :
    FsDir.allVal (FsDir.write d n c) n c := by
  unfold FsDir.write FsDir.allVal
  by_cases h : d.any (fun p => p.1 == n)
  · rw [if_pos h]
    intro p hp hpn
    rw [List.mem_map] at hp
    obtain ⟨q, hq, rfl⟩ := hp
    by_cases hqn : q.1 == n
    · rw [if_pos hqn]
    · rw [if_neg hqn] at hpn ⊢
      exact absurd hpn (by simpa using hqn)
  · rw [if_neg h]
    intro p hp hpn
    rcases List.mem_append.mp hp with hd | hs
    · rw [List.any_eq_true] at h
      push_neg at h
      exact absurd (by simpa using hpn) (by simpa using h p hd)
    · rw [List.mem_singleton] at hs
      rw [hs]

theorem write_hasKey_other {m n : String} (d : FsDir) (c : String) (h : m ≠ n) :
    (FsDir.write d m c).hasKey n = d.hasKey n := by
  unfold FsDir.write FsDir.hasKey
  by_cases hm : d.any (fun p => p.1 == m)
  · rw [if_pos hm]
    have hmap : ∀ (l : FsDir),
        (l.map (fun p => if p.1 == m then (m, c) else p)).any (fun p => p.1 == n)
          = l.any (fun p => p.1 == n) := by
      intro l
      induction l with
      | nil => rfl
      | cons q rest ih =>
        simp only [List.map_cons, List.any_cons, ih]
        congr 1
        by_cases hqm : q.1 == m
        · rw [if_pos hqm]
          have hq1 : q.1 = m := by simpa using hqm
          simp [h, hq1]
        · rw [if_neg hqm]
    exact hmap d
  · rw [if_neg hm, List.any_append]
    simp [h]

theorem write_allVal_other {m n : String} (d : FsDir) (c v : String) (h : m ≠ n)
    (hv : FsDir.allVal d n v) : FsDir.allVal (FsDir.write d m c) n v := by
  unfold FsDir.write FsDir.allVal
  split
  · intro p hp hpn
    rw [List.mem_map] at hp
    obtain ⟨q, hq, rfl⟩ := hp
    by_cases hqm : q.1 == m
    · rw [if_pos hqm] at hpn ⊢
      exact absurd hpn h
    · rw [if_neg hqm] at hpn ⊢
      exact hv q hq hpn
  · intro p hp hpn
    rcases List.mem_append.mp hp with hd | hs
    · exact hv p hd hpn
    · rw [List.mem_singleton] at hs
      rw [hs] at hpn
      exact absurd hpn h

theorem map_write_eq_self {d : FsDir} {n c : String} (hv : FsDir.allVal d n c) :
    d.map (fun p => if p.1 == n then (n, c) else p) = d := by
  induction d with
  | nil => rfl
  | cons p rest ih =>
    have hrest : FsDir.allVal rest n c := fun q hq => hv q (List.mem_cons_of_mem _ hq)
    simp only [List.map_cons, ih hrest]
    by_cases hpn : p.1 == n
    · have h1 : p.1 = n := by simpa using hpn
      have h2 : p.2 = c := hv p (List.mem_cons_self _ _) h1
      rw [if_pos hpn]
      rw [← h1, ← h2]
    · rw [if_neg hpn]

theorem write_id {d : FsDir} {n c : String} (h1 : d.hasKey n = true)
    (h2 : FsDir.allVal d n c) : FsDir.write d n c = d := by
  unfold FsDir.write
  rw [if_pos (by exact h1), map_write_eq_self h2]

/-! ### Injectivity of the generated file names -/

theorem digitVal_digitChar : ∀ m, m < 10 → digitVal (digitChar m) = m := by decide

theorem valOfDigits_decimalRepr : ∀ n, valOfDigits (decimalRepr n) = n := by
  intro n
  induction n using Nat.strong_induction_on with
  | _ n ih =>
    rw [decimalRepr_unfold]
    by_cases h : n < 10
    · rw [if_pos h]
      show 10 * 0 + digitVal (digitChar n) = n
      rw [digitVal_digitChar n h]
      omega
    · rw [if_neg h]
      unfold valOfDigits
      rw [List.foldl_append]
      show 10 * valOfDigits (decimalRepr (n / 10)) + digitVal (digitChar (n % 10)) = n
      rw [ih (n / 10) (by omega), digitVal_digitChar (n % 10) (by omega)]
      omega

theorem foldl_zeros (k : Nat) :
    List.foldl (fun acc c => 10 * acc + digitVal c) 0 (List.replicate k '0') = 0 := by
  induction k with
  | zero => rfl
  | succ m ih =>
    rw [List.replicate_succ, List.foldl_cons]
    show List.foldl (fun acc c => 10 * acc + digitVal c) (10 * 0 + digitVal '0')
      (List.replicate m '0') = 0
    have : (10 * 0 + digitVal '0') = 0 := rfl
    rw [this, ih]

theorem valOfDigits_format04d (n : Nat) : valOfDigits (format04d n).data = n := by
  show valOfDigits (List.replicate (4 - (decimalRepr n).length) '0' ++ decimalRepr n) = n
  unfold valOfDigits
  rw [List.foldl_append, foldl_zeros]
  exact valOfDigits_decimalRepr n

theorem format04d_inj {a b : Nat} (h : (format04d a).data = (format04d b).data) : a = b := by
  have ha := valOfDigits_format04d a
  have hb := valOfDigits_format04d b
  rw [h] at ha
  rw [hb] at ha
  exact ha.symm

theorem pageFileName_inj (nm fmt : String) {p q : Int} (hp : 0 ≤ p) (hq : 0 ≤ q)
    (h : pageFileName nm fmt p = pageFileName nm fmt q) : p = q := by
  have hd := congrArg String.data h
  simp only [pageFileName, String.data_append, List.append_assoc] at hd
  have h1 := List.append_cancel_left hd
  have h2 := List.append_cancel_left h1
  have h3 := List.append_cancel_right h2
  have h4 := format04d_inj h3
  omega

/-! ### Re-running the rasterizer over its own output -/

theorem okPages_cons_ok (pdf : PdfFile) {p : Int} (rest : List Int)
    (hp : ¬(p < 0 ∨ (pdf.pageCount : Int) ≤ p)) :
    okPages pdf (p :: rest) = p :: okPages pdf rest := by
  have hcond : (!(decide (p < 0 ∨ (pdf.pageCount : Int) ≤ p))) = true := by
    rw [Bool.not_eq_true', decide_eq_false_iff_not]
    exact hp
  unfold okPages
  rw [List.takeWhile_cons, hcond]
  simp

theorem okPages_cons_oob (pdf : PdfFile) {p : Int} (rest : List Int)
    (hp : p < 0 ∨ (pdf.pageCount : Int) ≤ p) :
    okPages pdf (p :: rest) = [] := by
  have hcond : (!(decide (p < 0 ∨ (pdf.pageCount : Int) ≤ p))) = false := by
    rw [Bool.not_eq_false']
    exact decide_eq_true hp
  unfold okPages
  rw [List.takeWhile_cons, hcond]
  simp

theorem convertPages_snd_indep (render : Int → String) (pdf : PdfFile) (nm fmt : String) :
    ∀ (pages : List Int) (d d' : FsDir),
    (convertPages render pdf nm fmt pages d).2 = (convertPages render pdf nm fmt pages d').2 := by
  intro pages
  induction pages with
  | nil => intro d d'; rfl
  | cons q rest ih =>
    intro d d'
    by_cases hq : q < 0 ∨ (pdf.pageCount : Int) ≤ q
    · simp [convertPages, convert_page_to_image, hq]
    · simp only [convertPages, convert_page_to_image, if_neg hq]
      rw [ih (FsDir.write d _ _) (FsDir.write d' _ _)]

theorem convertPages_preserve (render : Int → String) (pdf : PdfFile) (nm fmt : String) :
    ∀ (pages : List Int) (d : FsDir) (n v : String),
    (∀ p ∈ okPages pdf pages, pageFileName nm fmt p ≠ n) →
    d.hasKey n = true → FsDir.allVal d n v →
    ((convertPages render pdf nm fmt pages d).1.hasKey n = true
      ∧ FsDir.allVal (convertPages render pdf nm fmt pages d).1 n v) := by
  intro pages
  induction pages with
  | nil => intro d n v _ h1 h2; exact ⟨h1, h2⟩
  | cons q rest ih =>
    intro d n v hne h1 h2
    by_cases hq : q < 0 ∨ (pdf.pageCount : Int) ≤ q
    · simp only [convertPages, convert_page_to_image, if_pos hq]
      exact ⟨h1, h2⟩
    · have hqok : q ∈ okPages pdf (q :: rest) := by
        rw [okPages_cons_ok pdf rest hq]
        exact List.mem_cons_self _ _
      have hnq : pageFileName nm fmt q ≠ n := hne q hqok
      simp only [convertPages, convert_page_to_image, if_neg hq]
      refine ih _ n v (fun p hp => hne p ?_) ?_ ?_
      · rw [okPages_cons_ok pdf rest hq]
        exact List.mem_cons_of_mem _ hp
      · rw [write_hasKey_other d (render q) hnq]
        exact h1
      · exact write_allVal_other d (render q) v hnq h2

theorem convertPages_post (render : Int → String) (pdf : PdfFile) (nm fmt : String) :
    ∀ (pages : List Int) (d : FsDir),
    List.Pairwise (fun a b => pageFileName nm fmt a ≠ pageFileName nm fmt b)
      (okPages pdf pages) →
    ∀ q ∈ okPages pdf pages,
      ((convertPages render pdf nm fmt pages d).1.hasKey (pageFileName nm fmt q) = true
        ∧ FsDir.allVal (convertPages render pdf nm fmt pages d).1
            (pageFileName nm fmt q) (render q)) := by
  intro pages
  induction pages with
  | nil => intro d _ q hq; cases hq
  | cons p rest ih =>
    intro d hpw q hq
    by_cases hp : p < 0 ∨ (pdf.pageCount : Int) ≤ p
    · rw [okPages_cons_oob pdf rest hp] at hq
      cases hq
    · rw [okPages_cons_ok pdf rest hp] at hq hpw
      have hpw' := List.pairwise_cons.mp hpw
      simp only [convertPages, convert_page_to_image, if_neg hp]
      rcases List.mem_cons.mp hq with rfl | hq'
      · exact convertPages_preserve render pdf nm fmt rest _ _ _
          (fun x hx => (hpw'.1 x hx).symm)
          (write_hasKey_self d _ _) (write_allVal_self d _ _)
      · exact ih _ hpw'.2 q hq'

theorem convertPages_fix (render : Int → String) (pdf : PdfFile) (nm fmt : String) :
    ∀ (pages : List Int) (D : FsDir),
    (∀ q ∈ okPages pdf pages,
      D.hasKey (pageFileName nm fmt q) = true
        ∧ FsDir.allVal D (pageFileName nm fmt q) (render q)) →
    (convertPages render pdf nm fmt pages D).1 = D := by
  intro pages
  induction pages with
  | nil => intro D _; rfl
  | cons p rest ih =>
    intro D h
    by_cases hp : p < 0 ∨ (pdf.pageCount : Int) ≤ p
    · simp [convertPages, convert_page_to_image, hp]
    · have hhead := h p (by
        rw [okPages_cons_ok pdf rest hp]
        exact List.mem_cons_self _ _)
      simp only [convertPages, convert_page_to_image, if_neg hp]
      rw [write_id hhead.1 hhead.2]
      exact ih D (fun q hq => h q (by
        rw [okPages_cons_ok pdf rest hp]
        exact List.mem_cons_of_mem _ hq))

theorem okPages_names_pairwise (pdf : PdfFile) (nm fmt : String) (s e : Int) :
    List.Pairwise (fun a b => pageFileName nm fmt a ≠ pageFileName nm fmt b)
      (okPages pdf (intRange s e)) := by
  have hpw : List.Pairwise (fun a b => a < b) (okPages pdf (intRange s e)) :=
    List.Pairwise.sublist (List.takeWhile_sublist _) (intRange_pairwise s e)
  refine hpw.imp_of_mem ?_
  intro a b ha hb hab heq
  have hba : (0 : Int) ≤ a := by
    have := List.mem_takeWhile_imp ha
    simp only [Bool.not_eq_true', decide_eq_false_iff_not] at this
    omega
  have hbb : (0 : Int) ≤ b := by
    have := List.mem_takeWhile_imp hb
    simp only [Bool.not_eq_true', decide_eq_false_iff_not] at this
    omega
  have := pageFileName_inj nm fmt hba hbb heq
  omega

/-! ### Running the whole batch twice -/

theorem run_body_pdf (g : String → Option String)
    (service : String → String → Except String String) (render : Int → String)
    (args : Args) (w : World) : (run_body g service render args w).1.pdf = w.pdf := by
  unfold run_body
  cases hp : w.pdf with
  | none => exact hp
  | some pdf =>
    simp only []
    split <;> rfl

theorem run_body_apiKey (g : String → Option String)
    (service : String → String → Except String String) (render : Int → String)
    (args : Args) (w : World) : (run_body g service render args w).1.apiKey = w.apiKey := by
  unfold run_body
  cases hp : w.pdf with
  | none => rfl
  | some pdf =>
    simp only []
    split <;> rfl

theorem run_body_tempDir (g : String → Option String)
    (service : String → String → Except String String) (render : Int → String)
    (args : Args) (w : World) (pdf : PdfFile) (hp : w.pdf = some pdf) :
    (run_body g service render args w).1.tempDir
      = some (convert_pdf_to_images render args.pdf_file (some pdf) DEFAULT_OUTPUT_FORMAT
          (resolvePage args.first_page) (resolvePage args.last_page)
          (some (w.tempDir.getD []))).1 := by
  unfold run_body
  rw [hp]
  simp only []
  split <;> rfl

theorem convert_pdf_twice (render : Int → String) (pdf_path : String) (pdf : PdfFile)
    (fp lp : Option Int) (d0 : Option FsDir) :
    convert_pdf_to_images render pdf_path (some pdf) DEFAULT_OUTPUT_FORMAT fp lp
      (some (convert_pdf_to_images render pdf_path (some pdf) DEFAULT_OUTPUT_FORMAT fp lp d0).1)
      = convert_pdf_to_images render pdf_path (some pdf) DEFAULT_OUTPUT_FORMAT fp lp d0 := by
  by_cases hop : pdf.openable = true
  · unfold convert_pdf_to_images
    simp only [hop]
    simp only [Bool.true_eq_false, if_false, Option.getD_some]
    refine Prod.ext ?_ ?_
    · exact convertPages_fix render pdf (pdfStem pdf_path) DEFAULT_OUTPUT_FORMAT _ _
        (convertPages_post render pdf (pdfStem pdf_path) DEFAULT_OUTPUT_FORMAT _ _
          (okPages_names_pairwise pdf (pdfStem pdf_path) DEFAULT_OUTPUT_FORMAT _ _))
    · exact convertPages_snd_indep render pdf (pdfStem pdf_path) DEFAULT_OUTPUT_FORMAT _ _ _
  · have hop' : pdf.openable = false := by
      cases h : pdf.openable
      · rfl
      · exact absurd h hop
    simp [convert_pdf_to_images, hop']

theorem run_body_conv_inv (g : String → Option String)
    (service : String → String → Except String String) (render : Int → String)
    (args : Args) (w w' : World) (pdf : PdfFile)
    (hp : w.pdf = some pdf) (hp' : w'.pdf = some pdf) (hkey : w'.apiKey = w.apiKey)
    (hconv : convert_pdf_to_images render args.pdf_file (some pdf) DEFAULT_OUTPUT_FORMAT
        (resolvePage args.first_page) (resolvePage args.last_page) (some (w'.tempDir.getD []))
      = convert_pdf_to_images render args.pdf_file (some pdf) DEFAULT_OUTPUT_FORMAT
        (resolvePage args.first_page) (resolvePage args.last_page) (some (w.tempDir.getD []))) :
    (run_body g service render args w').2 = (run_body g service render args w).2
    ∧ ((run_body g service render args w').1.output = (run_body g service render args w).1.output
       ∨ ((run_body g service render args w').1.output = w'.output
           ∧ (run_body g service render args w).1.output = w.output)) := by
  unfold run_body
  rw [hp, hp']
  dsimp only
  rw [hconv, hkey]
  constructor
  · split <;> rfl
  · split
    · exact Or.inr ⟨rfl, rfl⟩
    · dsimp only
      split
      · exact Or.inl rfl
      · exact Or.inr ⟨rfl, rfl⟩

/-- C9: with retention of the intermediate images enabled and identical
inputs (same arguments, same deterministic render and recognition
functions), running the batch a second time from the state the first run
left behind yields the same exit code and the same output-file bytes: the
second rasterization rewrites exactly the files of the first run with
identical contents, so the recognition stage sees the identical directory
and the same text is written. -/
theorem rerun_idempotent (g : String → Option String)
    (service : String → String → Except String String) (render : Int → String)
    (args : Args) (w : World) (hk : args.keep_images = true) :
    (run_ocr_process g service render args
        (run_ocr_process g service render args w).1).1.output
      = (run_ocr_process g service render args w).1.output
    ∧ (run_ocr_process g service render args
        (run_ocr_process g service render args w).1).2
      = (run_ocr_process g service render args w).2 := by
  have hcleans : ∀ v : World, clean_temp_directory args.keep_images v = v := by
    intro v
    rw [hk]
    exact clean_keep_true v
  rw [run_fst, run_fst, run_snd, run_snd, hcleans, hcleans]
  cases hp : w.pdf with
  | none =>
    have h1 : run_body g service render args w = (w, Except.error PyErr.fileNotFound) := by
      unfold run_body
      rw [hp]
    rw [h1]
    dsimp only
    rw [h1]
    exact ⟨rfl, rfl⟩
  | some pdf =>
    have hp1 : (run_body g service render args w).1.pdf = some pdf := by
      rw [run_body_pdf, hp]
    have hk1 : (run_body g service render args w).1.apiKey = w.apiKey :=
      run_body_apiKey g service render args w
    have ht1 := run_body_tempDir g service render args w pdf hp
    have hconv : convert_pdf_to_images render args.pdf_file (some pdf) DEFAULT_OUTPUT_FORMAT
        (resolvePage args.first_page) (resolvePage args.last_page)
        (some ((run_body g service render args w).1.tempDir.getD []))
      = convert_pdf_to_images render args.pdf_file (some pdf) DEFAULT_OUTPUT_FORMAT
        (resolvePage args.first_page) (resolvePage args.last_page)
        (some (w.tempDir.getD [])) := by
      rw [ht1]
      simp only [Option.getD_some]
      exact convert_pdf_twice render args.pdf_file pdf _ _ _
    have hmain := run_body_conv_inv g service render args w
      (run_body g service render args w).1 pdf hp hp1 hk1 hconv
    refine ⟨?_, ?_⟩
    · rcases hmain.2 with h | ⟨h2, _⟩
      · exact h
      · exact h2
    · rw [hmain.1]

theorem rerun_idempotent_witness :
    (run_ocr_process (fun n => if n = "OCR_PROMPT" then some "P" else none)
        (fun _ _ => Except.ok "T") (fun _ => "img")
        ⟨"book.pdf", none, none, none, true, none⟩
        (run_ocr_process (fun n => if n = "OCR_PROMPT" then some "P" else none)
          (fun _ _ => Except.ok "T") (fun _ => "img")
          ⟨"book.pdf", none, none, none, true, none⟩
          ⟨some ⟨2, true⟩, none, none, some "k", []⟩).1).1.output
      = (run_ocr_process (fun n => if n = "OCR_PROMPT" then some "P" else none)
          (fun _ _ => Except.ok "T") (fun _ => "img")
          ⟨"book.pdf", none, none, none, true, none⟩
          ⟨some ⟨2, true⟩, none, none, some "k", []⟩).1.output
    ∧ (run_ocr_process (fun n => if n = "OCR_PROMPT" then some "P" else none)
        (fun _ _ => Except.ok "T") (fun _ => "img")
        ⟨"book.pdf", none, none, none, true, none⟩
        (run_ocr_process (fun n => if n = "OCR_PROMPT" then some "P" else none)
          (fun _ _ => Except.ok "T") (fun _ => "img")
          ⟨"book.pdf", none, none, none, true, none⟩
          ⟨some ⟨2, true⟩, none, none, some "k", []⟩).1).2
      = (run_ocr_process (fun n => if n = "OCR_PROMPT" then some "P" else none)
          (fun _ _ => Except.ok "T") (fun _ => "img")
          ⟨"book.pdf", none, none, none, true, none⟩
          ⟨some ⟨2, true⟩, none, none, some "k", []⟩).2 :=
  rerun_idempotent _ _ _ _ _ rfl

theorem page_range_resolution_witness :
    resolvePage (some 2) = some 1
    ∧ resolvePage none = none
    ∧ (convert_pdf_to_images (fun _ => "b") "book.pdf" (some ⟨5, true⟩) DEFAULT_OUTPUT_FORMAT
        (some 1) (some 1) (some [])).2 = Except.ok ["book_page_0002.png"]
    ∧ (convert_pdf_to_images (fun _ => "b") "book.pdf" (some ⟨5, true⟩) DEFAULT_OUTPUT_FORMAT
        none none (some [])).2
      = Except.ok ["book_page_0001.png", "book_page_0002.png", "book_page_0003.png",
          "book_page_0004.png", "book_page_0005.png"]
    ∧ (run_ocr_process moduleGlobals (fun _ _ => Except.ok "t") (fun _ => "b")
        ⟨"book.pdf", some 2, some 2, none, true, none⟩
        ⟨some ⟨5, true⟩, none, none, none, []⟩).1.tempDir
      = some [("book_page_0002.png", "b")] :=
  page_range_resolution (fun _ => "b") moduleGlobals (fun _ _ => Except.ok "t")
